import Mathlib

/-!
Verification of the file-compressor backend against its specification.

The development shallowly embeds the Python sources of
`modules/file-compressor-api/src/backend`:

* `db/models.py` — the `CompressionJob` record and the store functions
  `update_compression_job_progress` and `complete_compression_job`
  (ORM session plumbing is dropped; the functions are modelled as pure
  record transformers, with `datetime.utcnow()` passed in as `now`).
* `clients/couchbase.py` — the connection-manager state
  (`_cluster`, `_initialized`, `_connected`, `_connection_task`,
  `_last_connection_error`) and the operations `init_connection`,
  `close`, `health_check`.  `asyncio.create_task` is modelled by a
  counter `tasks_started` of retry-loop tasks ever launched, the stored
  task handle by `connection_task`.
* `workflows/file_compression.py` — the activities
  `update_job_progress`, `compress_files_zip`, `compress_files_tar_gz`
  and the orchestration `FileCompressionWorkflow.run`, modelled as a
  pure function returning the list of activity invocations made and the
  final result (`Except` for a raised `ApplicationError`).

External library primitives (`base64.b64decode`/`b64encode`, the ZIP
container serialisation of `zipfile`, `gzip.compress`) are parameters of
the embedding: the repository's code is generic in them, and no claim
depends on their internals.  Bytes are `List Nat`.  Python `float`
arithmetic on the compression ratio is modelled exactly with `ℚ`.
-/

namespace FileCompressor

abbrev Bytes := List Nat

/-! ## db/models.py -/

/-- Embeds the `CompressionJob` SQLModel table.  `datetime` fields are
modelled as `Nat` instants.  The Python field `compression_ratio` is
named `compression_ratio_pct` here. -/
structure CompressionJob where
  id : String
  workflow_id : String
  status : String
  progress : Int
  message : Option String
  file_count : Int
  original_size : Int
  compressed_size : Option Int
  compression_ratio_pct : Option ℚ
  compression_format : String
  created_at : Nat
  started_at : Option Nat
  completed_at : Option Nat
  compressed_data : Option String
deriving DecidableEq

/-- Python truthiness of an `Optional[str]` value: `None` and `""` are
falsy, every non-empty string is truthy. -/
def pyTruthyStr : Option String → Bool
  | none => false
  | some s => !s.isEmpty

/-- Embeds `update_compression_job_progress` (models.py lines 70-96) acting
on a located record: sets `progress` and `status` unconditionally, sets
`message` only when the argument is truthy (`if message:`), sets
`started_at` on a `starting` update when it is not already set
(`if status == "starting" and not job.started_at`), and sets
`completed_at` on a `completed`/`failed` update. -/
def update_compression_job_progress (job : CompressionJob) (progress : Int)
    (status : String) (message : Option String) (now : Nat) : CompressionJob :=
  let j1 := { job with progress := progress, status := status }
  let j2 := if pyTruthyStr message then { j1 with message := message } else j1
  if status = "starting" ∧ j2.started_at = none then
    { j2 with started_at := some now }
  else if status = "completed" ∨ status = "failed" then
    { j2 with completed_at := some now }
  else j2

/-- Embeds `complete_compression_job` (models.py lines 99-122) acting on a
located record: unconditionally overwrites status, progress, result fields,
`completed_at` and the message. -/
def complete_compression_job (job : CompressionJob) (compressed_size : Int)
    (ratio_pct : ℚ) (data : String) (now : Nat) : CompressionJob :=
  { job with
      status := "completed"
      progress := 100
      compressed_size := some compressed_size
      compression_ratio_pct := some ratio_pct
      compressed_data := some data
      completed_at := some now
      message := some "Compression completed successfully" }

/-! ## clients/couchbase.py -/

/-- Embeds the mutable state of `CouchbaseClient`.  `cluster` is the opaque
connection handle (`_cluster`), `connection_task` the stored background-task
handle (`_connection_task`), and `tasks_started` counts how many retry-loop
tasks `asyncio.create_task` has ever launched for this client. -/
structure CouchbaseClient where
  cluster : Option Nat
  initialized : Bool
  connected : Bool
  connection_task : Option Nat
  last_connection_error : Option String
  tasks_started : Nat
deriving DecidableEq

/-- Embeds `CouchbaseClient.init_connection` (couchbase.py lines 95-100):
returns immediately when not initialized; otherwise unconditionally launches
a new `_connection_retry_loop` task and overwrites `_connection_task` with
its handle.  There is no guard against an already-running loop. -/
def init_connection (c : CouchbaseClient) : CouchbaseClient :=
  if !c.initialized then c
  else { c with
          connection_task := some c.tasks_started
          tasks_started := c.tasks_started + 1 }

/-- Embeds `CouchbaseClient.close` (couchbase.py lines 121-126): only when a
cluster handle is present (`if self._cluster:`) it clears the handle and the
`_initialized` flag; `_connected` is never reset, and when no handle is
present nothing at all happens. -/
def close (c : CouchbaseClient) : CouchbaseClient :=
  if c.cluster.isSome then { c with cluster := none, initialized := false }
  else c

/-- Result of `health_check`. -/
inductive HealthStatus where
  | not_initialized
  | connecting (last_error : Option String)
  | healthy
deriving DecidableEq

/-- Embeds `CouchbaseClient.health_check` (couchbase.py lines 250-262). -/
def health_check (c : CouchbaseClient) : HealthStatus :=
  if !c.initialized then .not_initialized
  else if !c.connected then .connecting c.last_connection_error
  else .healthy

/-! ## workflows/file_compression.py — data types -/

/-- Embeds the `FileItem` pydantic model: `content` is the base64-encoded
payload, `size` the caller-declared byte count. -/
structure FileItem where
  name : String
  content : String
  size : Int
deriving DecidableEq

/-- Embeds `CompressionJobInput`. -/
structure CompressionJobInput where
  job_id : String
  files : List FileItem
  compression_format : String
  compression_level : Int
deriving DecidableEq

/-- Embeds `CompressionJobResult`.  The Python field `compression_ratio`
(a float) is named `compression_ratio_pct` and modelled exactly as `ℚ`. -/
structure CompressionJobResult where
  job_id : String
  compressed_data : String
  original_size : Int
  compressed_size : Int
  compression_ratio_pct : ℚ
  status : String
deriving DecidableEq

/-- Embeds `ProgressUpdate`. -/
structure ProgressUpdate where
  job_id : String
  progress : Int
  status : String
  message : Option String
deriving DecidableEq

/-! ## workflows/file_compression.py — activities -/

/-- Outcome of the body of the `update_job_progress` activity before its
`except` clause: either some step of connecting to the database raised
(`unreachable`), or the record was looked up (`record`, possibly absent —
`update_compression_job_progress` is a no-op when the id is unknown). -/
inductive DbAttempt where
  | unreachable (err : String)
  | record (job : Option CompressionJob)

/-- Embeds the `update_job_progress` activity (file_compression.py lines
57-96): the whole body sits in a `try` whose `except Exception` clause logs
and `pass`es, so the activity returns normally no matter how the database
attempt went; on a located record it applies
`update_compression_job_progress`.  The first component is the stored
record after the call (`none` when absent or unreachable), the second the
activity's outcome as seen by its caller. -/
def update_job_progress (db : DbAttempt) (p : ProgressUpdate) (now : Nat) :
    Option CompressionJob × Except String Unit :=
  match db with
  | .unreachable _ => (none, .ok ())
  | .record none => (none, .ok ())
  | .record (some job) =>
      (some (update_compression_job_progress job p.progress p.status p.message now),
       .ok ())

/-- Decodes every file in order, as both archive activities do: the first
file whose content fails to decode raises
`ApplicationError(f"Failed to decode file {name}: {err}")`; otherwise the
list of (name, decoded bytes) entries is produced in input order.
`b64decode` is the external `base64.b64decode` primitive. -/
def decodeFiles (b64decode : String → Except String Bytes) :
    List FileItem → Except String (List (String × Bytes))
  | [] => .ok []
  | f :: fs =>
    match b64decode f.content with
    | .error e => .error ("Failed to decode file " ++ f.name ++ ": " ++ e)
    | .ok bs =>
      match decodeFiles b64decode fs with
      | .error e => .error e
      | .ok rest => .ok ((f.name, bs) :: rest)

/-- Embeds the `compress_files_zip` activity (file_compression.py lines
99-122): writes every FileItem's decoded content as an entry named
`FileItem.name` into a ZIP archive at the requested compression level.
`zipArchive` is the external `zipfile` container serialisation taking the
level and the entry list; decompressing its output returns exactly the
entry list it was given. -/
def compress_files_zip (b64decode : String → Except String Bytes)
    (zipArchive : Int → List (String × Bytes) → Bytes)
    (input : CompressionJobInput) : Except String Bytes :=
  match decodeFiles b64decode input.files with
  | .error e => .error e
  | .ok entries => .ok (zipArchive input.compression_level entries)

/-- UTF-8 bytes of a string, for the textual delimiters written by
`compress_files_tar_gz`. -/
def utf8 (s : String) : Bytes :=
  s.toUTF8.toList.map (fun b => b.toNat)

/-- Concatenated body built by `compress_files_tar_gz` before gzip: for
every file, the delimiter `--- {name} ---\n`, the decoded bytes, and a
blank-line separator `\n\n` (bytes 10, 10). -/
def tarGzBody : List (String × Bytes) → Bytes
  | [] => []
  | (n, bs) :: rest =>
      utf8 ("--- " ++ n ++ " ---\n") ++ bs ++ [10, 10] ++ tarGzBody rest

/-- Embeds the `compress_files_tar_gz` activity (file_compression.py lines
125-149).  `gzipCompress` is the external `gzip.compress` primitive taking
the level and the combined content. -/
def compress_files_tar_gz (b64decode : String → Except String Bytes)
    (gzipCompress : Int → Bytes → Bytes)
    (input : CompressionJobInput) : Except String Bytes :=
  match decodeFiles b64decode input.files with
  | .error e => .error e
  | .ok entries => .ok (gzipCompress input.compression_level (tarGzBody entries))

/-! ## workflows/file_compression.py — the orchestrating workflow -/

/-- One activity invocation made by the workflow: a progress-report
activity, or one of the two archive-building activities. -/
inductive Invocation where
  | progressActivity (p : ProgressUpdate)
  | zipActivity (input : CompressionJobInput)
  | tarGzActivity (input : CompressionJobInput)
deriving DecidableEq

/-- Whether an invocation is of an archive-building activity. -/
def Invocation.isArchive : Invocation → Bool
  | .progressActivity _ => false
  | .zipActivity _ => true
  | .tarGzActivity _ => true

/-- The (progress, status) pairs of the progress-report invocations of a
trace, in order. -/
def progressEmissions : List Invocation → List (Int × String)
  | [] => []
  | .progressActivity p :: rest => (p.progress, p.status) :: progressEmissions rest
  | .zipActivity _ :: rest => progressEmissions rest
  | .tarGzActivity _ :: rest => progressEmissions rest

/-- Lower-casing used by the dispatch (`input.compression_format.lower()`),
written over the character list so that it evaluates by kernel reduction;
it agrees with Python `str.lower` on the ASCII format strings the dispatch
compares against. -/
def pyToLower (s : String) : String :=
  ⟨s.data.map Char.toLower⟩

/-- Format dispatch of `FileCompressionWorkflow.run` (file_compression.py
lines 214-228): the archive-building activity invoked (if any) and its
outcome.  An unsupported format raises
`ApplicationError(f"Unsupported compression format: {format}")` without
invoking any archive-building activity. -/
def dispatchCompress (b64decode : String → Except String Bytes)
    (zipArchive : Int → List (String × Bytes) → Bytes)
    (gzipCompress : Int → Bytes → Bytes)
    (input : CompressionJobInput) : List Invocation × Except String Bytes :=
  if pyToLower input.compression_format = "zip" then
    ([.zipActivity input], compress_files_zip b64decode zipArchive input)
  else if pyToLower input.compression_format = "tar_gz" then
    ([.tarGzActivity input], compress_files_tar_gz b64decode gzipCompress input)
  else
    ([], .error ("Unsupported compression format: " ++ input.compression_format))

/-- Embeds `FileCompressionWorkflow.run` (file_compression.py lines
165-284) as a pure function from the job input to the ordered list of
activity invocations the workflow makes and its final outcome.  The five
happy-path progress reports are emitted via `update_job_progress`, whose
own failures are swallowed inside the activity, so in this model a
progress-report invocation never raises.  Any exception from the dispatch
or the archive-building activity reaches the single `except` clause, which
emits one best-effort `failed` report with progress 0 and re-raises
`ApplicationError(f"Compression workflow failed: {err}")`.
`b64encode` is the external `base64.b64encode(...).decode()` primitive. -/
def FileCompressionWorkflow.run (b64decode : String → Except String Bytes)
    (b64encode : Bytes → String)
    (zipArchive : Int → List (String × Bytes) → Bytes)
    (gzipCompress : Int → Bytes → Bytes)
    (input : CompressionJobInput) :
    List Invocation × Except String CompressionJobResult :=
  let startU : ProgressUpdate :=
    ⟨input.job_id, 0, "starting", some "Initializing compression"⟩
  let prepU : ProgressUpdate :=
    ⟨input.job_id, 25, "preparing", some "Preparing files for compression"⟩
  let compU : ProgressUpdate :=
    ⟨input.job_id, 50, "compressing", some "Compressing files"⟩
  let original_size : Int := (input.files.map FileItem.size).sum
  let pre : List Invocation :=
    [.progressActivity startU, .progressActivity prepU, .progressActivity compU]
  match dispatchCompress b64decode zipArchive gzipCompress input with
  | (invs, .error e) =>
    let failU : ProgressUpdate :=
      ⟨input.job_id, 0, "failed", some ("Compression failed: " ++ e)⟩
    (pre ++ invs ++ [.progressActivity failU],
     .error ("Compression workflow failed: " ++ e))
  | (invs, .ok archive) =>
    let compressed_size : Int := (archive.length : Int)
    let ratio_pct : ℚ :=
      if original_size > 0 then
        ((original_size : ℚ) - (compressed_size : ℚ)) / (original_size : ℚ) * 100
      else 0
    let finU : ProgressUpdate :=
      ⟨input.job_id, 90, "finalizing", some "Finalizing compression"⟩
    let doneU : ProgressUpdate :=
      ⟨input.job_id, 100, "completed", some "Compression completed successfully"⟩
    (pre ++ invs ++ [.progressActivity finU, .progressActivity doneU],
     .ok ⟨input.job_id, b64encode archive, original_size, compressed_size,
          ratio_pct, "completed"⟩)

/-- Whether an `Except` outcome is a success. -/
def exceptOk {ε α : Type} : Except ε α → Bool
  | .ok _ => true
  | .error _ => false

/-! ## Concrete instances of the external primitives and inputs, used to
evaluate the embedding at specific points. -/

/-- Concrete decoder: every content decodes to the two bytes `hi` except
the marker `"!!"`, which raises as `base64.b64decode` does on malformed
input. -/
def cB64 : String → Except String Bytes :=
  fun s => if s = "!!" then .error "Invalid base64-encoded string" else .ok [104, 105]

/-- Concrete encoder stand-in. -/
def cEnc : Bytes → String :=
  fun bs => String.mk (List.replicate bs.length 'A')

/-- Concrete ZIP container serialisation stand-in: one byte per entry plus
a header byte, so a one-entry archive has two bytes. -/
def cZip : Int → List (String × Bytes) → Bytes :=
  fun _ es => List.replicate (es.length + 1) 0

/-- Concrete gzip stand-in. -/
def cGz : Int → Bytes → Bytes :=
  fun _ bs => 0 :: bs

/-- A well-formed job: two decodable files, format `zip`. -/
def wfInput : CompressionJobInput :=
  ⟨"job-1", [⟨"a.txt", "aGk=", 100⟩, ⟨"b.txt", "aGk=", 200⟩], "zip", 6⟩

/-- A job requesting the unsupported format `rar`. -/
def rarInput : CompressionJobInput :=
  ⟨"job-2", [⟨"a.txt", "aGk=", 100⟩], "rar", 6⟩

/-- A job whose single file has undecodable content. -/
def undecInput : CompressionJobInput :=
  ⟨"job-3", [⟨"a.txt", "!!", 100⟩], "zip", 6⟩

/-- A job whose declared sizes sum to zero. -/
def zeroInput : CompressionJobInput :=
  ⟨"job-4", [⟨"a.txt", "aGk=", 0⟩], "zip", 6⟩

/-- The result the workflow model produces on `zeroInput` with the
concrete primitives: one entry, a two-byte archive, zero original size,
ratio 0. -/
def zeroResult : CompressionJobResult :=
  ⟨"job-4", "AA", 0, 2, 0, "completed"⟩

/-- A job record that has already reached the terminal status
`completed`. -/
def cJob : CompressionJob :=
  ⟨"job-1", "wf-1", "completed", 100, some "done", 2, 300, some 120, some 60,
   "zip", 10, some 11, some 12, some "UEs="⟩

/-- An initialized client whose retry loop is active (a task was launched
and the connection is not yet established). -/
def cClientA : CouchbaseClient :=
  ⟨none, true, false, some 0, some "timeout", 1⟩

/-- An initialized, connected client holding a cluster handle. -/
def cClientB : CouchbaseClient :=
  ⟨some 7, true, true, some 0, none, 1⟩

/-! ## Helper lemmas -/

/-- When every file's content decodes, `decodeFiles` succeeds and its entry
list contains, for every file, the entry made of the file's name and its
decoded bytes. -/
theorem decodeFiles_ok_of_all_ok (b64 : String → Except String Bytes) :
    ∀ fs : List FileItem, (∀ f ∈ fs, exceptOk (b64 f.content) = true) →
      ∃ es, decodeFiles b64 fs = .ok es ∧
        ∀ f ∈ fs, ∃ bs, b64 f.content = .ok bs ∧ (f.name, bs) ∈ es := by
  intro fs
  induction fs with
  | nil => intro _; exact ⟨[], rfl, by simp⟩
  | cons f fs ih =>
    intro hall
    have hf := hall f (by simp)
    obtain ⟨bs, hbs⟩ : ∃ bs, b64 f.content = .ok bs := by
      cases h : b64 f.content with
      | ok bs => exact ⟨bs, rfl⟩
      | error e => rw [h] at hf; simp [exceptOk] at hf
    obtain ⟨es, hes, hmem⟩ := ih (fun g hg => hall g (by simp [hg]))
    refine ⟨(f.name, bs) :: es, ?_, ?_⟩
    · simp [decodeFiles, hbs, hes]
    · intro g hg
      rcases List.mem_cons.mp hg with hg | hg
      · exact ⟨bs, by rw [hg]; exact hbs, by rw [hg]; simp⟩
      · obtain ⟨cs, hcs, hcmem⟩ := hmem g hg
        exact ⟨cs, hcs, by simp [hcmem]⟩

/-- `progressEmissions` distributes over list append. -/
theorem progressEmissions_append (xs ys : List Invocation) :
    progressEmissions (xs ++ ys) = progressEmissions xs ++ progressEmissions ys := by
  induction xs with
  | nil => simp [progressEmissions]
  | cons x xs ih => cases x <;> simp [progressEmissions, ih]

/-- Dispatch on a format whose lower-casing is `zip`. -/
theorem dispatchCompress_zip_eq (b64 : String → Except String Bytes)
    (zipArchive : Int → List (String × Bytes) → Bytes)
    (gzipCompress : Int → Bytes → Bytes) (input : CompressionJobInput)
    (h : pyToLower input.compression_format = "zip") :
    dispatchCompress b64 zipArchive gzipCompress input =
      ([.zipActivity input], compress_files_zip b64 zipArchive input) := by
  simp [dispatchCompress, h]

/-- Dispatch on a format whose lower-casing is `tar_gz`. -/
theorem dispatchCompress_tar_eq (b64 : String → Except String Bytes)
    (zipArchive : Int → List (String × Bytes) → Bytes)
    (gzipCompress : Int → Bytes → Bytes) (input : CompressionJobInput)
    (h : pyToLower input.compression_format = "tar_gz") :
    dispatchCompress b64 zipArchive gzipCompress input =
      ([.tarGzActivity input], compress_files_tar_gz b64 gzipCompress input) := by
  have hz : ¬ pyToLower input.compression_format = "zip" := by
    rw [h]; decide
  simp [dispatchCompress, hz, h]

/-- Dispatch on an unsupported format. -/
theorem dispatchCompress_unsupported_eq (b64 : String → Except String Bytes)
    (zipArchive : Int → List (String × Bytes) → Bytes)
    (gzipCompress : Int → Bytes → Bytes) (input : CompressionJobInput)
    (hz : ¬ pyToLower input.compression_format = "zip")
    (ht : ¬ pyToLower input.compression_format = "tar_gz") :
    dispatchCompress b64 zipArchive gzipCompress input =
      ([], .error ("Unsupported compression format: " ++ input.compression_format)) := by
  simp [dispatchCompress, hz, ht]

/-- Inversion of a successful dispatch: the archive came from the zip or
the tar_gz activity, matching the requested format. -/
theorem dispatchCompress_ok_inv (b64 : String → Except String Bytes)
    (zipArchive : Int → List (String × Bytes) → Bytes)
    (gzipCompress : Int → Bytes → Bytes) (input : CompressionJobInput)
    (invs : List Invocation) (archive : Bytes)
    (h : dispatchCompress b64 zipArchive gzipCompress input = (invs, .ok archive)) :
    (pyToLower input.compression_format = "zip" ∧
      compress_files_zip b64 zipArchive input = .ok archive) ∨
    (pyToLower input.compression_format = "tar_gz" ∧
      compress_files_tar_gz b64 gzipCompress input = .ok archive) := by
  unfold dispatchCompress at h
  split_ifs at h with h1 h2
  · left
    refine ⟨h1, ?_⟩
    have := congrArg Prod.snd h
    simp at this
    rw [this]
  · right
    refine ⟨h2, ?_⟩
    have := congrArg Prod.snd h
    simp at this
    rw [this]
  · exfalso
    have := congrArg Prod.snd h
    simp at this

/-- The run on a dispatch that produced an archive: trace and result,
stated exactly as the workflow builds them. -/
theorem run_of_dispatch_ok (b64 : String → Except String Bytes)
    (enc : Bytes → String) (zipA : Int → List (String × Bytes) → Bytes)
    (gz : Int → Bytes → Bytes) (input : CompressionJobInput)
    (invs : List Invocation) (archive : Bytes)
    (hd : dispatchCompress b64 zipA gz input = (invs, .ok archive)) :
    FileCompressionWorkflow.run b64 enc zipA gz input =
      ([.progressActivity ⟨input.job_id, 0, "starting", some "Initializing compression"⟩,
        .progressActivity ⟨input.job_id, 25, "preparing", some "Preparing files for compression"⟩,
        .progressActivity ⟨input.job_id, 50, "compressing", some "Compressing files"⟩]
        ++ invs ++
        [.progressActivity ⟨input.job_id, 90, "finalizing", some "Finalizing compression"⟩,
         .progressActivity ⟨input.job_id, 100, "completed", some "Compression completed successfully"⟩],
       .ok ⟨input.job_id, enc archive, (input.files.map FileItem.size).sum,
            (archive.length : Int),
            (if (input.files.map FileItem.size).sum > 0 then
               (((input.files.map FileItem.size).sum : ℚ) - ((archive.length : Int) : ℚ)) /
                 ((input.files.map FileItem.size).sum : ℚ) * 100
             else 0),
            "completed"⟩) := by
  unfold FileCompressionWorkflow.run
  rw [hd]

/-- The run on a dispatch that raised: trace and result, stated exactly as
the workflow builds them. -/
theorem run_of_dispatch_error (b64 : String → Except String Bytes)
    (enc : Bytes → String) (zipA : Int → List (String × Bytes) → Bytes)
    (gz : Int → Bytes → Bytes) (input : CompressionJobInput)
    (invs : List Invocation) (e : String)
    (hd : dispatchCompress b64 zipA gz input = (invs, .error e)) :
    FileCompressionWorkflow.run b64 enc zipA gz input =
      ([.progressActivity ⟨input.job_id, 0, "starting", some "Initializing compression"⟩,
        .progressActivity ⟨input.job_id, 25, "preparing", some "Preparing files for compression"⟩,
        .progressActivity ⟨input.job_id, 50, "compressing", some "Compressing files"⟩]
        ++ invs ++
        [.progressActivity ⟨input.job_id, 0, "failed", some ("Compression failed: " ++ e)⟩],
       .error ("Compression workflow failed: " ++ e)) := by
  unfold FileCompressionWorkflow.run
  rw [hd]

/-! ## Claim theorems -/

/-- C4 (counterexample): the store is not immutable after a terminal
status.  `cJob` has status `completed`, yet `update_compression_job_progress`
applied to it changes the record — the code has no terminal-status guard. -/
theorem terminal_record_immutability_cex :
    cJob.status = "completed" ∧
      update_compression_job_progress cJob 50 "compressing" none 5 ≠ cJob := by
  constructor
  · rfl
  · decide

/-- C4 (amended): the store operations apply their updates unconditionally.
Even when a JobRecord's status is terminal (`completed` or `failed`),
`update_compression_job_progress` overwrites `status` and `progress` with
its arguments, and `complete_compression_job` overwrites the record to a
completed one; no store operation checks for a terminal status. -/
theorem terminal_record_still_mutated (job : CompressionJob) (p : Int)
    (s : String) (m : Option String) (now : Nat) (cs : Int) (rt : ℚ) (d : String)
    (hterm : job.status = "completed" ∨ job.status = "failed") :
    (update_compression_job_progress job p s m now).status = s ∧
    (update_compression_job_progress job p s m now).progress = p ∧
    (complete_compression_job job cs rt d now).status = "completed" ∧
    (complete_compression_job job cs rt d now).progress = 100 ∧
    (complete_compression_job job cs rt d now).compressed_data = some d := by
  refine ⟨?_, ?_, rfl, rfl, rfl⟩ <;>
    · simp only [update_compression_job_progress]
      split_ifs <;> rfl

/-- C4 (witness): the amended theorem applied to the completed record
`cJob`. -/
theorem terminal_record_still_mutated_witness :
    (update_compression_job_progress cJob 50 "compressing" none 5).status = "compressing" ∧
    (update_compression_job_progress cJob 50 "compressing" none 5).progress = 50 ∧
    (complete_compression_job cJob 7 (-10) "QQ==" 6).status = "completed" ∧
    (complete_compression_job cJob 7 (-10) "QQ==" 6).progress = 100 ∧
    (complete_compression_job cJob 7 (-10) "QQ==" 6).compressed_data = some "QQ==" :=
  terminal_record_still_mutated cJob 50 "compressing" none 5 7 (-10) "QQ==" (Or.inl rfl)

/-- C7: any failure inside the progress-reporting activity is caught
inside the activity: whatever the outcome of the database attempt —
unreachable store, absent record, or a located record — the
`update_job_progress` activity returns success to its caller, so a
progress-reporting failure by itself never fails the workflow. -/
theorem update_job_progress_never_raises (db : DbAttempt) (p : ProgressUpdate)
    (now : Nat) : (update_job_progress db p now).2 = .ok () := by
  cases db with
  | unreachable e => rfl
  | record j => cases j <;> rfl

/-- C8 (counterexample): `init_connection` is not idempotent.  `cClientA`
is initialized, not yet connected, and holds an active retry-loop task,
yet calling `init_connection` again changes the state: a second loop task
is launched and the stored handle is overwritten. -/
theorem init_connection_idempotence_cex :
    cClientA.initialized = true ∧ cClientA.connected = false ∧
    cClientA.connection_task.isSome = true ∧
    init_connection cClientA ≠ cClientA := by
  refine ⟨rfl, rfl, rfl, ?_⟩
  decide

/-- C8 (amended): `init_connection` is a no-op only when the client is not
initialized.  Whenever the client is initialized — in particular while a
retry loop is already active (a task handle is stored and the connection is
not yet established) — each call launches one more retry-loop task,
overwrites the stored task handle, and therefore changes the state. -/
theorem init_connection_relaunches_loop (c : CouchbaseClient)
    (hinit : c.initialized = true) (hconn : c.connected = false)
    (htask : c.connection_task.isSome = true) :
    (init_connection c).tasks_started = c.tasks_started + 1 ∧
    (init_connection c).connection_task = some c.tasks_started ∧
    init_connection c ≠ c := by
  have hne : init_connection c ≠ c := by
    intro he
    have := congrArg CouchbaseClient.tasks_started he
    simp [init_connection, hinit] at this
  refine ⟨?_, ?_, hne⟩ <;> simp [init_connection, hinit]

/-- C8 (witness): the amended theorem applied to `cClientA`. -/
theorem init_connection_relaunches_loop_witness :
    (init_connection cClientA).tasks_started = cClientA.tasks_started + 1 ∧
    (init_connection cClientA).connection_task = some cClientA.tasks_started ∧
    init_connection cClientA ≠ cClientA :=
  init_connection_relaunches_loop cClientA rfl rfl rfl

/-- C9 (counterexample): `close` does not reset the connected flag.
`cClientB` holds a cluster handle and is connected; after `close` the
handle is released and `initialized` is cleared, but `connected` is still
`true`, refuting the claim that both flags are reset. -/
theorem close_resets_connected_cex :
    cClientB.cluster.isSome = true ∧ cClientB.connected = true ∧
    (close cClientB).connected = true := by
  refine ⟨rfl, rfl, ?_⟩
  decide

/-- C9 (amended): when a cluster handle is present, `close` releases the
handle and resets the `initialized` flag — but leaves the `connected` flag
unchanged — so a subsequent `health_check` reports `not_initialized`; and
`close` is idempotent.  (When no handle is present, `close` changes
nothing at all.) -/
theorem close_resets_initialized_only (c : CouchbaseClient)
    (h : c.cluster.isSome = true) :
    (close c).cluster = none ∧ (close c).initialized = false ∧
    (close c).connected = c.connected ∧
    health_check (close c) = .not_initialized ∧
    close (close c) = close c := by
  refine ⟨?_, ?_, ?_, ?_, ?_⟩ <;> simp [close, health_check, h]

/-- C9 (witness): the amended theorem applied to `cClientB`. -/
theorem close_resets_initialized_only_witness :
    (close cClientB).cluster = none ∧ (close cClientB).initialized = false ∧
    (close cClientB).connected = cClientB.connected ∧
    health_check (close cClientB) = .not_initialized ∧
    close (close cClientB) = close cClientB :=
  close_resets_initialized_only cClientB rfl

/-- C10: `update_compression_job_progress` modifies only `progress`,
`status`, `message`, `started_at` and `completed_at`: every other field of
the record is returned unchanged; moreover a `None` or empty-string message
argument leaves the stored message unchanged, and a `started_at` that is
already set is never overwritten. -/
theorem update_progress_frame (job : CompressionJob) (p : Int) (s : String)
    (m : Option String) (now : Nat) :
    ((update_compression_job_progress job p s m now).id = job.id ∧
     (update_compression_job_progress job p s m now).workflow_id = job.workflow_id ∧
     (update_compression_job_progress job p s m now).file_count = job.file_count ∧
     (update_compression_job_progress job p s m now).original_size = job.original_size ∧
     (update_compression_job_progress job p s m now).compressed_size = job.compressed_size ∧
     (update_compression_job_progress job p s m now).compression_ratio_pct = job.compression_ratio_pct ∧
     (update_compression_job_progress job p s m now).compression_format = job.compression_format ∧
     (update_compression_job_progress job p s m now).created_at = job.created_at ∧
     (update_compression_job_progress job p s m now).compressed_data = job.compressed_data) ∧
    ((m = none ∨ m = some "") →
      (update_compression_job_progress job p s m now).message = job.message) ∧
    (∀ t, job.started_at = some t →
      (update_compression_job_progress job p s m now).started_at = some t) := by
  refine ⟨?_, ?_, ?_⟩
  · simp only [update_compression_job_progress]
    split_ifs <;> simp
  · intro hm
    have hfalse : pyTruthyStr m = false := by
      rcases hm with hm | hm <;> rw [hm] <;> rfl
    simp only [update_compression_job_progress, hfalse]
    split_ifs <;> simp_all
  · intro t ht
    simp only [update_compression_job_progress]
    split_ifs <;> simp_all

/-- C1: for every well-formed job specification (non-empty file list,
supported format compared case-insensitively, all contents decodable), the
run emits exactly the progress reports
`starting 0, preparing 25, compressing 50, finalizing 90, completed 100`,
in this order and with no other status update, and succeeds. -/
theorem workflow_happy_path_statuses (b64 : String → Except String Bytes)
    (enc : Bytes → String) (zipA : Int → List (String × Bytes) → Bytes)
    (gz : Int → Bytes → Bytes) (input : CompressionJobInput)
    (hne : input.files ≠ [])
    (hfmt : pyToLower input.compression_format = "zip" ∨
            pyToLower input.compression_format = "tar_gz")
    (hdec : ∀ f ∈ input.files, exceptOk (b64 f.content) = true) :
    progressEmissions (FileCompressionWorkflow.run b64 enc zipA gz input).1 =
      [(0, "starting"), (25, "preparing"), (50, "compressing"),
       (90, "finalizing"), (100, "completed")] ∧
    exceptOk (FileCompressionWorkflow.run b64 enc zipA gz input).2 = true := by
  obtain ⟨es, hes, -⟩ := decodeFiles_ok_of_all_ok b64 input.files hdec
  rcases hfmt with h | h
  · have hd := dispatchCompress_zip_eq b64 zipA gz input h
    have hz : compress_files_zip b64 zipA input =
        .ok (zipA input.compression_level es) := by
      simp [compress_files_zip, hes]
    rw [hz] at hd
    rw [run_of_dispatch_ok b64 enc zipA gz input _ _ hd]
    refine ⟨?_, rfl⟩
    simp [progressEmissions_append, progressEmissions]
  · have hd := dispatchCompress_tar_eq b64 zipA gz input h
    have hz : compress_files_tar_gz b64 gz input =
        .ok (gz input.compression_level (tarGzBody es)) := by
      simp [compress_files_tar_gz, hes]
    rw [hz] at hd
    rw [run_of_dispatch_ok b64 enc zipA gz input _ _ hd]
    refine ⟨?_, rfl⟩
    simp [progressEmissions_append, progressEmissions]

/-- C1 (witness): the happy-path theorem applied to the two-file zip job
`wfInput` with the concrete primitives. -/
theorem workflow_happy_path_statuses_witness :
    wfInput.files ≠ [] ∧
    progressEmissions (FileCompressionWorkflow.run cB64 cEnc cZip cGz wfInput).1 =
      [(0, "starting"), (25, "preparing"), (50, "compressing"),
       (90, "finalizing"), (100, "completed")] ∧
    exceptOk (FileCompressionWorkflow.run cB64 cEnc cZip cGz wfInput).2 = true :=
  ⟨by decide,
   (workflow_happy_path_statuses cB64 cEnc cZip cGz wfInput (by decide)
     (Or.inl (by decide)) (by decide)).1,
   (workflow_happy_path_statuses cB64 cEnc cZip cGz wfInput (by decide)
     (Or.inl (by decide)) (by decide)).2⟩

/-- C2 (counterexample): on the unsupported format `rar` the workflow does
fail with the unsupported-format error, but not before any activity is
invoked: the invocation trace is non-empty (three progress-report
activities ran before the dispatch check, plus the failed report). -/
theorem unsupported_format_cex :
    (FileCompressionWorkflow.run cB64 cEnc cZip cGz rarInput).2 =
      .error "Compression workflow failed: Unsupported compression format: rar" ∧
    (FileCompressionWorkflow.run cB64 cEnc cZip cGz rarInput).1 ≠ [] := by
  constructor
  · rfl
  · decide

/-- C2 (amended): for every specification whose format, compared
case-insensitively, is neither `zip` nor `tar_gz`, the workflow fails with
the unsupported-format error before any archive-building activity is
invoked; the progress reports made are exactly
`starting 0, preparing 25, compressing 50` followed by the best-effort
`failed` report. -/
theorem unsupported_format_before_archive (b64 : String → Except String Bytes)
    (enc : Bytes → String) (zipA : Int → List (String × Bytes) → Bytes)
    (gz : Int → Bytes → Bytes) (input : CompressionJobInput)
    (hz : ¬ pyToLower input.compression_format = "zip")
    (ht : ¬ pyToLower input.compression_format = "tar_gz") :
    progressEmissions (FileCompressionWorkflow.run b64 enc zipA gz input).1 =
      [(0, "starting"), (25, "preparing"), (50, "compressing"), (0, "failed")] ∧
    (∀ i ∈ (FileCompressionWorkflow.run b64 enc zipA gz input).1,
      i.isArchive = false) ∧
    (FileCompressionWorkflow.run b64 enc zipA gz input).2 =
      .error ("Compression workflow failed: " ++
        ("Unsupported compression format: " ++ input.compression_format)) := by
  have hd := dispatchCompress_unsupported_eq b64 zipA gz input hz ht
  rw [run_of_dispatch_error b64 enc zipA gz input _ _ hd]
  refine ⟨?_, ?_, rfl⟩
  · simp [progressEmissions_append, progressEmissions]
  · intro i hi
    simp at hi
    rcases hi with hi | hi | hi | hi <;> rw [hi] <;> rfl

/-- C2 (witness): the amended theorem applied to `rarInput`. -/
theorem unsupported_format_before_archive_witness :
    progressEmissions (FileCompressionWorkflow.run cB64 cEnc cZip cGz rarInput).1 =
      [(0, "starting"), (25, "preparing"), (50, "compressing"), (0, "failed")] ∧
    (∀ i ∈ (FileCompressionWorkflow.run cB64 cEnc cZip cGz rarInput).1,
      i.isArchive = false) ∧
    (FileCompressionWorkflow.run cB64 cEnc cZip cGz rarInput).2 =
      .error ("Compression workflow failed: " ++
        ("Unsupported compression format: " ++ rarInput.compression_format)) :=
  unsupported_format_before_archive cB64 cEnc cZip cGz rarInput
    (by decide) (by decide)

/-- C3 (counterexample): on a spec whose single file is undecodable, the
last milestone reported before the failure is `compressing` with progress
50, yet the `failed` report carries progress 0, not 50 — the failed
emission does not carry the last successfully reported milestone. -/
theorem failed_report_progress_cex :
    progressEmissions (FileCompressionWorkflow.run cB64 cEnc cZip cGz undecInput).1 =
      [(0, "starting"), (25, "preparing"), (50, "compressing"), (0, "failed")] ∧
    (progressEmissions (FileCompressionWorkflow.run cB64 cEnc cZip cGz undecInput).1).getLast?
      ≠ some (50, "failed") := by
  constructor
  · decide
  · decide

/-- C3 (amended): whenever a run fails, the single best-effort `failed`
report always carries progress 0 (the hard-coded value of the failure
handler), not the last reported milestone; since every run first reports
`starting` with progress 0, the value 0 is always among the already
recorded ones. -/
theorem failed_report_progress_zero (b64 : String → Except String Bytes)
    (enc : Bytes → String) (zipA : Int → List (String × Bytes) → Bytes)
    (gz : Int → Bytes → Bytes) (input : CompressionJobInput)
    (hfail : exceptOk (FileCompressionWorkflow.run b64 enc zipA gz input).2 = false) :
    (progressEmissions (FileCompressionWorkflow.run b64 enc zipA gz input).1).getLast?
      = some (0, "failed") ∧
    (progressEmissions (FileCompressionWorkflow.run b64 enc zipA gz input).1).head?
      = some (0, "starting") := by
  rcases hd : dispatchCompress b64 zipA gz input with ⟨invs, res⟩
  cases res with
  | ok archive =>
    exfalso
    rw [run_of_dispatch_ok b64 enc zipA gz input _ _ hd] at hfail
    simp [exceptOk] at hfail
  | error e =>
    have hinvs : progressEmissions invs = [] := by
      unfold dispatchCompress at hd
      split_ifs at hd <;> (injection hd with h1 h2; rw [← h1]) <;> rfl
    rw [run_of_dispatch_error b64 enc zipA gz input _ _ hd]
    simp [progressEmissions_append, hinvs, progressEmissions]

/-- C3 (witness): the amended theorem applied to the failing run on
`undecInput`. -/
theorem failed_report_progress_zero_witness :
    (progressEmissions (FileCompressionWorkflow.run cB64 cEnc cZip cGz undecInput).1).getLast?
      = some (0, "failed") ∧
    (progressEmissions (FileCompressionWorkflow.run cB64 cEnc cZip cGz undecInput).1).head?
      = some (0, "starting") :=
  failed_report_progress_zero cB64 cEnc cZip cGz undecInput (by decide)

/-- C5: on every successful run, `compressed_size` is the byte length of
the archive produced by the dispatched activity, `original_size` is the
sum of declared sizes, and the ratio equals
`(original_size - compressed_size) / original_size * 100` when
`original_size > 0` and 0 otherwise — the formula is applied as is, with
no clamping. -/
theorem result_size_and_ratio (b64 : String → Except String Bytes)
    (enc : Bytes → String) (zipA : Int → List (String × Bytes) → Bytes)
    (gz : Int → Bytes → Bytes) (input : CompressionJobInput)
    (r : CompressionJobResult)
    (h : (FileCompressionWorkflow.run b64 enc zipA gz input).2 = .ok r) :
    r.original_size = (input.files.map FileItem.size).sum ∧
    (∃ archive : Bytes,
      ((pyToLower input.compression_format = "zip" ∧
          compress_files_zip b64 zipA input = .ok archive) ∨
       (pyToLower input.compression_format = "tar_gz" ∧
          compress_files_tar_gz b64 gz input = .ok archive)) ∧
      r.compressed_size = (archive.length : Int)) ∧
    r.compression_ratio_pct =
      (if r.original_size > 0 then
        ((r.original_size : ℚ) - (r.compressed_size : ℚ)) / (r.original_size : ℚ) * 100
       else 0) := by
  rcases hd : dispatchCompress b64 zipA gz input with ⟨invs, res⟩
  cases res with
  | error e =>
    exfalso
    rw [run_of_dispatch_error b64 enc zipA gz input _ _ hd] at h
    exact Except.noConfusion h
  | ok archive =>
    rw [run_of_dispatch_ok b64 enc zipA gz input _ _ hd] at h
    injection h with h
    subst h
    exact ⟨rfl, ⟨archive, dispatchCompress_ok_inv b64 zipA gz input invs archive hd, rfl⟩,
      rfl⟩

/-- C5 (witness): the theorem applied to the successful run on
`zeroInput`, whose declared sizes sum to 0 — the ratio takes the
division-free branch and is 0. -/
theorem result_size_and_ratio_witness :
    (FileCompressionWorkflow.run cB64 cEnc cZip cGz zeroInput).2 = .ok zeroResult ∧
    (zeroResult.original_size = (zeroInput.files.map FileItem.size).sum ∧
     (∃ archive : Bytes,
       ((pyToLower zeroInput.compression_format = "zip" ∧
           compress_files_zip cB64 cZip zeroInput = .ok archive) ∨
        (pyToLower zeroInput.compression_format = "tar_gz" ∧
           compress_files_tar_gz cB64 cGz zeroInput = .ok archive)) ∧
       zeroResult.compressed_size = (archive.length : Int)) ∧
     zeroResult.compression_ratio_pct =
       (if zeroResult.original_size > 0 then
         ((zeroResult.original_size : ℚ) - (zeroResult.compressed_size : ℚ)) /
           (zeroResult.original_size : ℚ) * 100
        else 0)) :=
  ⟨rfl, result_size_and_ratio cB64 cEnc cZip cGz zeroInput zeroResult rfl⟩

/-- C6: when every file of the specification decodes, `compress_files_zip`
succeeds and the archive it produces is the container serialisation of an
entry list that holds, for every FileItem, an entry named `FileItem.name`
whose bytes are exactly that file's decoded content; decompressing the
container returns this entry list, so the round trip recovers every file's
content under its name. -/
theorem zip_archive_contains_all_files (b64 : String → Except String Bytes)
    (zipA : Int → List (String × Bytes) → Bytes) (input : CompressionJobInput)
    (hdec : ∀ f ∈ input.files, exceptOk (b64 f.content) = true) :
    ∃ es : List (String × Bytes),
      decodeFiles b64 input.files = .ok es ∧
      compress_files_zip b64 zipA input = .ok (zipA input.compression_level es) ∧
      ∀ f ∈ input.files, ∃ bs, b64 f.content = .ok bs ∧ (f.name, bs) ∈ es := by
  obtain ⟨es, hes, hmem⟩ := decodeFiles_ok_of_all_ok b64 input.files hdec
  exact ⟨es, hes, by simp [compress_files_zip, hes], hmem⟩

/-- C6 (witness): the round-trip theorem applied to the two-file job
`wfInput` with the concrete primitives. -/
theorem zip_archive_contains_all_files_witness :
    (∀ f ∈ wfInput.files, exceptOk (cB64 f.content) = true) ∧
    ∃ es : List (String × Bytes),
      decodeFiles cB64 wfInput.files = .ok es ∧
      compress_files_zip cB64 cZip wfInput = .ok (cZip wfInput.compression_level es) ∧
      ∀ f ∈ wfInput.files, ∃ bs, cB64 f.content = .ok bs ∧ (f.name, bs) ∈ es :=
  ⟨by decide, zip_archive_contains_all_files cB64 cZip wfInput (by decide)⟩

/-- C10 (witness): the frame theorem applied to the record `cJob` with a
`None` message and an already-set `started_at`. -/
theorem update_progress_frame_witness :
    (update_compression_job_progress cJob 60 "compressing" none 7).compressed_data = cJob.compressed_data ∧
    (update_compression_job_progress cJob 60 "compressing" none 7).message = cJob.message ∧
    (update_compression_job_progress cJob 60 "compressing" none 7).started_at = some 11 :=
  ⟨(update_progress_frame cJob 60 "compressing" none 7).1.2.2.2.2.2.2.2.2,
   (update_progress_frame cJob 60 "compressing" none 7).2.1 (Or.inl rfl),
   (update_progress_frame cJob 60 "compressing" none 7).2.2 11 rfl⟩

end FileCompressor
